import Mathlib

/-!
Shallow embedding of the `rust_hello_universe` repository: the custom
result type `MyResult` (src/somelib/src/my_result.rs), the error kind
`Error` (src/somelib/src/error.rs), the random producers `RandoA` /
`RandoB` and the trait default method `get_random_vec`
(src/randolib/src/lib.rs), and the driver loop (src/hello/src/main.rs).

The thread-local random number generator is modelled as an explicit
stream of drawn values: a single call receives the drawn item as an
argument, a batch call receives a stream `Nat → T`, and a run over many
calls receives the list of values drawn in order.  Panics (`panic!`,
`todo!`, `unimplemented!`) are modelled by the `PanicOutcome` type, which
records either a returned value or abnormal termination with the panic
message.
-/

/-- Embedding of `somelib::my_result::MyResult<T, E>`: a two-variant
success/failure container, `Ok(T)` or `Err(E)`. -/
inductive MyResult (T E : Type) where
  | Ok : T → MyResult T E
  | Err : E → MyResult T E
  deriving DecidableEq

/-- Embedding of `somelib::error::Error`: the sole error kind,
`ConsecutiveRandom`, raised on two equal sequential draws. -/
inductive Error where
  | ConsecutiveRandom : Error
  deriving DecidableEq

/-- Outcome of a Rust function that may panic: either it returns a value
or it terminates abnormally with a panic message. -/
inductive PanicOutcome (A : Type) where
  | returns : A → PanicOutcome A
  | panics : String → PanicOutcome A
  deriving DecidableEq

/-- True exactly when the outcome is abnormal termination. -/
def PanicOutcome.isPanic {A : Type} : PanicOutcome A → Bool
  | .panics _ => true
  | .returns _ => false

/-- Embedding of `MyResult::is_ok`. -/
def MyResult.is_ok {T E : Type} : MyResult T E → Bool
  | .Ok _ => true
  | _ => false

/-- Embedding of `MyResult::is_err`. -/
def MyResult.is_err {T E : Type} : MyResult T E → Bool
  | .Err _ => true
  | _ => false

/-- Embedding of `MyResult::unwrap`: returns the `Ok` payload, panics on
`Err` with the source's message. -/
def MyResult.unwrap {T E : Type} : MyResult T E → PanicOutcome T
  | .Ok val => .returns val
  | _ => .panics "attempting to unwrap a nonexistent value"

/-- Embedding of `MyResult::unwrap_err`: the `Err` arm is `todo!()` and
the catch-all arm is `unimplemented!()`, so every input panics (with the
standard messages of those macros). -/
def MyResult.unwrap_err {T E : Type} : MyResult T E → PanicOutcome E
  | .Err _err => .panics "not yet implemented"
  | _ => .panics "not implemented"

/-- Embedding of `impl Termination for MyResult`: `report` yields
`ExitCode::SUCCESS` (0) on `Ok` and `ExitCode::FAILURE` (1) on `Err`.
Exit codes are modelled as naturals. -/
def MyResult.report {T E : Type} : MyResult T E → Nat
  | .Ok _ => 0
  | .Err _ => 1

/-- Embedding of `impl From<MyResult<T, E>> for Result<T, E>`: the host
`Result` is modelled by `Except E T`. -/
def myResultToResult {T E : Type} : MyResult T E → Except E T
  | .Ok val => .ok val
  | .Err err => .error err

/-- Embedding of the trait default method `GetRandoStuff::get_random_vec`:
the RNG draws a 32-element array (`rng.gen::<[T; 32]>()`), modelled by the
first 32 values of the draw stream, then `take(len)` keeps at most `len`
of them. -/
def get_random_vec {T : Type} (draws : Nat → T) (len : Nat) : List T :=
  ((List.range 32).map draws).take len

/-- Embedding of `randolib::RandoB<T>`: holds the single piece of state
`last_item : Option<T>`. -/
structure RandoB (T : Type) where
  last_item : Option T
  deriving DecidableEq

/-- Embedding of `RandoB::new`: starts with `last_item = None`. -/
def RandoB.new {T : Type} : RandoB T :=
  ⟨none⟩

/-- Embedding of `RandoB::get_random_item`.  The freshly drawn value
`item` (`rng.gen::<T>()`) is an explicit argument; the mutated receiver is
returned alongside the result.  If `last_item` is `None` the function
returns `Ok(item)` early (without assigning `last_item`); otherwise it
takes the old value, stores `Some(item)`, and compares. -/
def RandoB.get_random_item {T : Type} [DecidableEq T] (self : RandoB T) (item : T) :
    RandoB T × MyResult T Error :=
  match self.last_item with
  | none => (self, MyResult.Ok item)
  | some last_item =>
      if last_item = item then
        (⟨some item⟩, MyResult.Err Error.ConsecutiveRandom)
      else
        (⟨some item⟩, MyResult.Ok item)

/-- Iterate `RandoB.get_random_item` over a list of drawn values,
collecting the final state and the results in order. -/
def runRandoB {T : Type} [DecidableEq T] (self : RandoB T) : List T → RandoB T × List (MyResult T Error)
  | [] => (self, [])
  | item :: rest =>
      let step := self.get_random_item item
      let tail := runRandoB step.1 rest
      (tail.1, step.2 :: tail.2)

/-- Embedding of the driver loop in `hello::main`: each iteration draws a
value, converts the `MyResult` to the host `Result`, and the `?` operator
either continues the loop on `Ok` (after printing) or makes `main` return
the error.  `fuel` bounds the number of iterations observed; `none` means
the loop is still running after `fuel` iterations, `some res` means `main`
returned with `res`. -/
def mainLoop (rando_b : RandoB Char) (draws : Nat → Char) : Nat → Option (Except Error Unit)
  | 0 => none
  | fuel + 1 =>
      let step := rando_b.get_random_item (draws 0)
      match myResultToResult step.2 with
      | Except.error e => some (Except.error e)
      | Except.ok _ => mainLoop step.1 (fun n => draws (n + 1)) fuel

/-- Stepping from a state with `last_item = None` leaves the state
unchanged and returns `Ok` of the drawn value. -/
theorem get_random_item_of_none {T : Type} [DecidableEq T] (s : RandoB T) (v : T)
    (h : s.last_item = none) :
    s.get_random_item v = (s, MyResult.Ok v) := by
  simp [RandoB.get_random_item, h]

theorem get_random_item_of_none_example :
    (RandoB.new : RandoB Char).get_random_item 'z' = (RandoB.new, MyResult.Ok 'z') :=
  get_random_item_of_none RandoB.new 'z' rfl

/-- Starting from `last_item = None`, any run of `get_random_item` leaves
`last_item = None` and every result is `Ok`. -/
theorem runRandoB_of_none {T : Type} [DecidableEq T] (s : RandoB T) (draws : List T)
    (h : s.last_item = none) :
    (runRandoB s draws).1.last_item = none ∧
      ((runRandoB s draws).2.all fun r => !r.is_err) = true := by
  induction draws generalizing s with
  | nil => simpa [runRandoB] using h
  | cons a rest ih =>
      have hstep := get_random_item_of_none s a h
      simpa [runRandoB, hstep, MyResult.is_err] using ih s h

/-- C1: The claim states that a `produce()` call made in the Fresh state
(`last_item = None`) stores the drawn value and transitions the producer
to the Primed state, so that `last_item` afterwards equals the value drawn
during the call.  The code instead returns early from the
`last_item.is_none()` branch without assigning `last_item`: after the
first call on a fresh `RandoB` with drawn value `'a'`, `last_item` is still
`None`, not `Some('a')`. -/
theorem c1_fresh_call_does_not_store :
    ((RandoB.new : RandoB Char).get_random_item 'a').2 = MyResult.Ok 'a' ∧
      ((RandoB.new : RandoB Char).get_random_item 'a').1.last_item = none := by
  exact ⟨rfl, rfl⟩

/-- C2: For every sequence of drawn values, after any number of
`get_random_item` calls on a `RandoB` constructed by `RandoB::new`, the
field `last_item` is still `None`, and no call ever returned
`MyResult::Err`. -/
theorem c2_last_item_stays_none_and_never_err (draws : List Char) :
    (runRandoB (RandoB.new : RandoB Char) draws).1.last_item = none ∧
      ((runRandoB (RandoB.new : RandoB Char) draws).2.all fun r => !r.is_err) = true :=
  runRandoB_of_none RandoB.new draws rfl

/-- C3: In a single `get_random_item` call, if the newly drawn value
equals the stored previous value the call returns
`Err(Error::ConsecutiveRandom)`; otherwise (a different stored value, or
no stored value at all) it returns `Ok` carrying the newly drawn value. -/
theorem c3_duplicate_draw_is_flagged {T : Type} [DecidableEq T] (s : RandoB T) (v : T) :
    (s.last_item = some v →
      (s.get_random_item v).2 = MyResult.Err Error.ConsecutiveRandom) ∧
    (s.last_item ≠ some v → (s.get_random_item v).2 = MyResult.Ok v) := by
  constructor
  · intro h
    simp [RandoB.get_random_item, h]
  · intro h
    match hlast : s.last_item with
    | none => simp [RandoB.get_random_item, hlast]
    | some p =>
        have hne : p ≠ v := by
          intro hpv
          exact h (hpv ▸ hlast)
        simp [RandoB.get_random_item, hlast, hne]

theorem c3_duplicate_draw_is_flagged_witness :
    ((RandoB.mk (some 'a') : RandoB Char).get_random_item 'a').2 =
        MyResult.Err Error.ConsecutiveRandom ∧
      ((RandoB.mk (some 'a') : RandoB Char).get_random_item 'b').2 = MyResult.Ok 'b' :=
  ⟨(c3_duplicate_draw_is_flagged (RandoB.mk (some 'a')) 'a').1 rfl,
    (c3_duplicate_draw_is_flagged (RandoB.mk (some 'a')) 'b').2 (by decide)⟩

/-- C4: The claim states that with the deterministic draw sequence
`['a', 'a']`, two `produce()` calls on a freshly constructed producer
return `Ok('a')` then `Err(ConsecutiveRandom)`.  The code returns
`Ok('a')` both times: the first call never stores `'a'` into `last_item`,
so the second call also takes the `is_none` early-return path. -/
theorem c4_second_duplicate_not_flagged :
    (runRandoB (RandoB.new : RandoB Char) ['a', 'a']).2 =
      [MyResult.Ok 'a', MyResult.Ok 'a'] := by
  rfl

/-- C5: For every draw stream and every requested length `len`,
`get_random_vec` returns a list of length exactly `min len 32`. -/
theorem c5_vec_length (draws : Nat → Char) (len : Nat) :
    (get_random_vec draws len).length = min len 32 := by
  simp [get_random_vec]

theorem c5_vec_length_witness :
    (get_random_vec (fun _ => 'a') 99).length = min 99 32 :=
  c5_vec_length (fun _ => 'a') 99

/-- C6: The first `get_random_item` call on a `RandoB` freshly constructed
by `RandoB::new` returns `Ok`, whatever value the random source yields. -/
theorem c6_first_call_always_ok {T : Type} [DecidableEq T] (v : T) :
    ((RandoB.new : RandoB T).get_random_item v).2.is_ok = true :=
  rfl

theorem c6_first_call_always_ok_witness :
    ((RandoB.new : RandoB Char).get_random_item 'q').2.is_ok = true :=
  c6_first_call_always_ok 'q'

/-- C7: Converting `MyResult::Ok(v)` to the host `Result` yields `Ok(v)`,
and converting `MyResult::Err(e)` yields `Err(e)`. -/
theorem c7_conversion_preserves_variants {T E : Type} (v : T) (e : E) :
    myResultToResult (MyResult.Ok v : MyResult T E) = Except.ok v ∧
      myResultToResult (MyResult.Err e : MyResult T E) = Except.error e :=
  ⟨rfl, rfl⟩

theorem c7_conversion_preserves_variants_witness :
    myResultToResult (MyResult.Ok 'a' : MyResult Char Error) = Except.ok 'a' ∧
      myResultToResult (MyResult.Err Error.ConsecutiveRandom : MyResult Char Error) =
        Except.error Error.ConsecutiveRandom :=
  c7_conversion_preserves_variants 'a' Error.ConsecutiveRandom

/-- C8: `unwrap` on `Ok(v)` returns `v`; `unwrap` on an `Err` value
terminates abnormally with the message "attempting to unwrap a nonexistent
value"; and `unwrap_err` on an `Ok` value likewise terminates
abnormally. -/
theorem c8_unwrap_contract {T E : Type} (v : T) (e : E) :
    (MyResult.Ok v : MyResult T E).unwrap = PanicOutcome.returns v ∧
      (MyResult.Err e : MyResult T E).unwrap =
        PanicOutcome.panics "attempting to unwrap a nonexistent value" ∧
      (MyResult.Ok v : MyResult T E).unwrap_err.isPanic = true :=
  ⟨rfl, rfl, rfl⟩

theorem c8_unwrap_contract_witness :
    (MyResult.Ok 'a' : MyResult Char Error).unwrap = PanicOutcome.returns 'a' ∧
      (MyResult.Err Error.ConsecutiveRandom : MyResult Char Error).unwrap =
        PanicOutcome.panics "attempting to unwrap a nonexistent value" ∧
      (MyResult.Ok 'a' : MyResult Char Error).unwrap_err.isPanic = true :=
  c8_unwrap_contract 'a' Error.ConsecutiveRandom

/-- C9: `unwrap_err` terminates abnormally on every input; in particular
on `Err(e)` it panics (the `todo!()` arm) instead of returning the
contained error `e`, so the error value is never extractable through this
accessor. -/
theorem c9_unwrap_err_always_aborts {T E : Type} (r : MyResult T E) (e : E) :
    r.unwrap_err.isPanic = true ∧
      ∃ msg, (MyResult.Err e : MyResult T E).unwrap_err = PanicOutcome.panics msg := by
  refine ⟨?_, "not yet implemented", rfl⟩
  cases r <;> rfl

theorem c9_unwrap_err_always_aborts_witness :
    (MyResult.Err Error.ConsecutiveRandom : MyResult Char Error).unwrap_err.isPanic = true ∧
      ∃ msg, (MyResult.Err Error.ConsecutiveRandom : MyResult Char Error).unwrap_err =
        PanicOutcome.panics msg :=
  c9_unwrap_err_always_aborts (MyResult.Err Error.ConsecutiveRandom) Error.ConsecutiveRandom

/-- C10: `MyResult`'s `Termination` implementation reports
`ExitCode::FAILURE` (1, nonzero) for every `Err` value and
`ExitCode::SUCCESS` (0) for every `Ok` value, and whenever the driver loop
terminates, it does so by returning a propagated error from `main` — never
a success value. -/
theorem c10_failure_exit_is_nonzero (e : Error) (v : Char) (s : RandoB Char)
    (draws : Nat → Char) (fuel : Nat) (res : Except Error Unit)
    (h : mainLoop s draws fuel = some res) :
    (MyResult.Err e : MyResult Char Error).report = 1 ∧
      (MyResult.Ok v : MyResult Char Error).report = 0 ∧
      ∃ err : Error, res = Except.error err := by
  refine ⟨rfl, rfl, ?_⟩
  induction fuel generalizing s draws with
  | zero => simp [mainLoop] at h
  | succ n ih =>
      rw [mainLoop] at h
      match hstep : myResultToResult (s.get_random_item (draws 0)).2 with
      | Except.error err =>
          rw [hstep] at h
          exact ⟨err, by simpa using h.symm⟩
      | Except.ok u =>
          rw [hstep] at h
          exact ih _ _ h

theorem c10_failure_exit_is_nonzero_witness :
    (MyResult.Err Error.ConsecutiveRandom : MyResult Char Error).report = 1 ∧
      (MyResult.Ok 'a' : MyResult Char Error).report = 0 ∧
      ∃ err : Error,
        (Except.error Error.ConsecutiveRandom : Except Error Unit) = Except.error err :=
  c10_failure_exit_is_nonzero Error.ConsecutiveRandom 'a' (RandoB.mk (some 'a'))
    (fun _ => 'a') 1 (Except.error Error.ConsecutiveRandom) (by rfl)
